import Mathlib

/-!
Verification of the mes-systems repository: a shallow Lean embedding of the
Simulation Gateway (cw3: `app/models.py`, `app/dependencies.py`,
`app/routers/simulations.py`) and the Item CRUD service (cw4: `main.py`,
`schemas.py`), together with proofs of the spec's testable properties.

Modelling conventions:
* Python floats are modelled as `ℚ` (all arithmetic the mock performs —
  `10 - c * 1.5`, `50 + c * 8`, `max`/`min` clamps — is exact on rationals
  for integer `c`).
* Python dicts keyed by strings are modelled as association lists with
  `List.lookup`.
* FastAPI's `HTTPException` is a status code plus a detail string; a handler
  returning either a response or an `HTTPException` is `Except HTTPException α`.
* Mutable state (the mock client's `_simulation_counter`, the CRUD store)
  is threaded explicitly.
* Calls into the provider object are recorded in an explicit trace
  (`List ProviderCall`) so that "no provider operation is invoked" is statable.
* `datetime.now()` timestamps are wall-clock values with no bearing on any
  claim and are not modelled.
-/

namespace MesSystems

/-- FastAPI `HTTPException`: a status code with a human-readable detail. -/
structure HTTPException where
  status_code : Nat
  detail : String
  deriving DecidableEq, Repr

/-- `app/models.py` `SimulationRequest` (cw3): `server_capacity` is a required
int with the pydantic constraint `gt=0`; `model_name` and `experiment_name`
are strings with defaults. The structure holds the parsed fields; the pydantic
`gt=0` parse-time check is `parse_simulation_request` below. -/
structure SimulationRequest where
  server_capacity : Int
  model_name : String := "Service System Demo"
  experiment_name : String := "Simulation"
  deriving DecidableEq, Repr

/-- `app/models.py` `SimulationResponse` (cw3). `raw_outputs` is the
provider's output bag passed through unvalidated. The `timestamp` field
(wall-clock `datetime.now()`) is not modelled. -/
structure SimulationResponse where
  simulation_id : String
  server_capacity : Int
  mean_queue_size : ℚ
  server_utilization : ℚ
  raw_outputs : List (String × ℚ)
  status : String
  deriving DecidableEq, Repr

/-- `app/models.py` `ModelInfo` (cw3). -/
structure ModelInfo where
  id : String
  name : String
  latest_version_id : Option String := none
  version_name : Option String := none
  version_number : Option Int := none
  deriving DecidableEq, Repr

/-- Pydantic validation of a `SimulationRequest` body: `server_capacity`
carries `Field(..., gt=0)`, so a body whose `server_capacity` is not `> 0` is
rejected before the handler runs, with FastAPI's 422 Unprocessable Entity. -/
def parse_simulation_request (server_capacity : Int)
    (model_name experiment_name : String) :
    Except HTTPException SimulationRequest :=
  if server_capacity > 0 then
    .ok { server_capacity, model_name, experiment_name }
  else
    .error ⟨422, "Input should be greater than 0"⟩

/-- `app/dependencies.py` `MockModelVersion`: id is `"version_" + model_id`,
number is always 1. -/
structure MockModelVersion where
  id : String
  name : String
  number : Int
  deriving DecidableEq, Repr

def MockModelVersion.make (model_id : String) (name : String) :
    MockModelVersion :=
  { id := "version_" ++ model_id, name := name, number := 1 }

/-- `app/dependencies.py` `MockModel`: carries its latest version. The router
guards `model.latest_version` against `None`, so the field is an `Option`;
the mock constructor always populates it. -/
structure MockModel where
  id : String
  name : String
  latest_version : Option MockModelVersion
  deriving DecidableEq, Repr

def MockModel.make (model_id : String) (name : String) : MockModel :=
  { id := model_id, name := name,
    latest_version := some (MockModelVersion.make model_id name) }

/-- `app/dependencies.py` `MockInputs`: a dict of named input parameters.
Only integer values are ever stored (`"Server capacity"`). -/
structure MockInputs where
  params : List (String × Int)
  deriving DecidableEq, Repr

/-- `MockInputs.set_input`: store the value under the name (dict assignment:
an existing binding for the same key is replaced). -/
def MockInputs.set_input (inputs : MockInputs) (name : String) (value : Int) :
    MockInputs :=
  { params := (inputs.params.filter (fun p => p.1 ≠ name)) ++ [(name, value)] }

/-- `app/dependencies.py` `MockOutputs`: the output bag, a dict from metric
name to value, built by `__init__` from the server capacity. -/
structure MockOutputs where
  server_capacity : Int
  data : List (String × ℚ)
  deriving DecidableEq, Repr

/-- `MockOutputs.__init__`: the demo formulas
`max(0, 10 - server_capacity * 1.5)` and `min(100, 50 + server_capacity * 8)`. -/
def MockOutputs.ofCapacity (server_capacity : Int) : MockOutputs :=
  { server_capacity := server_capacity,
    data :=
      [("Mean queue size|Mean queue size",
          max 0 (10 - (server_capacity : ℚ) * (3 / 2))),
       ("Utilization|Server utilization",
          min 100 (50 + (server_capacity : ℚ) * 8))] }

/-- `MockOutputs.value`: `self.data.get(key, 0.0)` — dict lookup defaulting
to `0.0` when the key is absent. -/
def MockOutputs.value (outputs : MockOutputs) (key : String) : ℚ :=
  (outputs.data.lookup key).getD 0

/-- `MockOutputs.get_raw_outputs`: the whole bag. -/
def MockOutputs.get_raw_outputs (outputs : MockOutputs) :
    List (String × ℚ) :=
  outputs.data

/-- `app/dependencies.py` `MockSimulation`. -/
structure MockSimulation where
  id : String
  inputs : MockInputs
  deriving DecidableEq, Repr

/-- `MockSimulation.get_outputs_and_run_if_absent`: reads
`inputs.params.get("Server capacity", 1)` and builds the outputs. -/
def MockSimulation.get_outputs_and_run_if_absent (sim : MockSimulation) :
    MockOutputs :=
  MockOutputs.ofCapacity ((sim.inputs.params.lookup "Server capacity").getD 1)

/-- `app/dependencies.py` `MockCloudClient`: the api key and the in-process
`_simulation_counter`. -/
structure MockCloudClient where
  api_key : String
  simulation_counter : Nat
  deriving DecidableEq, Repr

/-- `MockCloudClient.get_models`: the fixed three-entry demo catalog, in
source order. The client state is returned unchanged (the method does not
touch `_simulation_counter`). -/
def MockCloudClient.get_models (client : MockCloudClient) :
    List MockModel × MockCloudClient :=
  ([MockModel.make "model_1" "Service System Demo",
    MockModel.make "model_2" "Manufacturing Line Demo",
    MockModel.make "model_3" "Supply Chain Demo"], client)

/-- `MockCloudClient.get_latest_model_version`: always returns
`MockModelVersion("latest", model_name)`, for every name, with no catalog
lookup. -/
def MockCloudClient.get_latest_model_version (model_name : String) :
    MockModelVersion :=
  MockModelVersion.make "latest" model_name

/-- `MockCloudClient.create_inputs_from_experiment`: always returns a fresh
empty `MockInputs`, for every version and experiment name. -/
def MockCloudClient.create_inputs_from_experiment
    (_version : MockModelVersion) (_experiment_name : String) : MockInputs :=
  { params := [] }

/-- Zero-pad a decimal numeral to width 4 (Python `f"{n:04d}"` for `n ≥ 0`). -/
def pad4 (n : Nat) : String :=
  let s := toString n
  if s.length < 4 then String.mk (List.replicate (4 - s.length) '0') ++ s
  else s

/-- `MockCloudClient.create_simulation`: increments `_simulation_counter` and
mints the id `f"sim_{counter:04d}"`. -/
def MockCloudClient.create_simulation (client : MockCloudClient)
    (inputs : MockInputs) : MockSimulation × MockCloudClient :=
  let counter := client.simulation_counter + 1
  ({ id := "sim_" ++ pad4 counter, inputs := inputs },
   { client with simulation_counter := counter })

/-- `get_cloud_client` in `app/dependencies.py`: a fresh demo client. -/
def get_cloud_client : MockCloudClient :=
  { api_key := "DEMO_KEY", simulation_counter := 0 }

/-- One invocation of a provider operation, recorded in order. -/
inductive ProviderCall where
  | getLatestModelVersion (model_name : String)
  | createInputsFromExperiment (experiment_name : String)
  | createSimulation
  | getOutputsAndRunIfAbsent
  deriving DecidableEq, Repr

/-- `run_simulation` handler in `app/routers/simulations.py` (cw3), on the
mock provider. Returns the handler outcome, the client state after the call,
and the trace of provider operations invoked. The explicit in-handler check
rejects `server_capacity ≤ 0` with a 400 before any provider call; the
catch-all 500 branch of the source is unreachable on the mock because every
mock operation is total, so it has no counterpart in the embedding's
success path. -/
def run_simulation (request : SimulationRequest) (client : MockCloudClient) :
    Except HTTPException SimulationResponse × MockCloudClient ×
      List ProviderCall :=
  if request.server_capacity ≤ 0 then
    (.error ⟨400, "server capacity must be a positive number"⟩, client, [])
  else
    let version := MockCloudClient.get_latest_model_version request.model_name
    let inputs := MockCloudClient.create_inputs_from_experiment version
      request.experiment_name
    let inputs := inputs.set_input "Server capacity" request.server_capacity
    let (simulation, client) := client.create_simulation inputs
    let outputs := simulation.get_outputs_and_run_if_absent
    let mean_queue_size := outputs.value "Mean queue size|Mean queue size"
    let server_utilization := outputs.value "Utilization|Server utilization"
    (.ok { simulation_id := simulation.id,
           server_capacity := request.server_capacity,
           mean_queue_size := mean_queue_size,
           server_utilization := server_utilization,
           raw_outputs := outputs.get_raw_outputs,
           status := "completed" },
     client,
     [.getLatestModelVersion request.model_name,
      .createInputsFromExperiment request.experiment_name,
      .createSimulation,
      .getOutputsAndRunIfAbsent])

/-- The full submit-simulation operation: pydantic body validation followed by
the handler. A body rejected by validation never reaches the handler, so the
client is untouched and the provider trace is empty. -/
def submit_simulation (server_capacity : Int)
    (model_name experiment_name : String) (client : MockCloudClient) :
    Except HTTPException SimulationResponse × MockCloudClient ×
      List ProviderCall :=
  match parse_simulation_request server_capacity model_name experiment_name with
  | .error e => (.error e, client, [])
  | .ok request => run_simulation request client

/-- The per-model body of the `get_models` handler's loop: base info, plus
version detail when `include_versions` is set and a latest version exists. -/
def model_to_info (include_versions : Bool) (model : MockModel) : ModelInfo :=
  let base : ModelInfo :=
    { id := model.id, name := model.name,
      latest_version_id := model.latest_version.map (fun v => v.id) }
  match include_versions, model.latest_version with
  | true, some v =>
      { base with version_name := some v.name, version_number := some v.number }
  | _, _ => base

/-- `get_models` handler in `app/routers/simulations.py` (cw3): fetch the
provider's list and build the result by appending one `ModelInfo` per model,
in loop order. -/
def get_models_endpoint (client : MockCloudClient) (include_versions : Bool) :
    List ModelInfo × MockCloudClient :=
  let (models, client) := client.get_models
  let result := models.foldl
    (fun acc model => acc ++ [model_to_info include_versions model]) []
  (result, client)

/-- `get_model_by_id` handler in `app/routers/simulations.py` (cw3): fetch
the full listing and linearly scan for the first model whose id matches;
404 when none does. The found branch always fills the version fields. -/
def get_model_by_id (model_id : String) (client : MockCloudClient) :
    Except HTTPException ModelInfo × MockCloudClient :=
  let (models, client) := client.get_models
  match models.find? (fun m => m.id == model_id) with
  | some model =>
      (.ok { id := model.id, name := model.name,
             latest_version_id := model.latest_version.map (fun v => v.id),
             version_name := model.latest_version.map (fun v => v.name),
             version_number := model.latest_version.map (fun v => v.number) },
       client)
  | none =>
      (.error ⟨404, "model with id " ++ model_id ++ " not found"⟩, client)

/-! ## Item CRUD service (cw4)

`cw4/main.py` and `cw4/schemas.py` are in the source; the store layer
`cw4/crud.py` (and the ORM model/`database.py`) is not, so the store
operations are modelled from the spec. -/

/-- `cw4` Item record (`ItemResponse` shape / ORM row): id assigned by the
store, required title, optional description and price. -/
structure Item where
  id : Nat
  title : String
  description : Option String
  price : Option Int
  deriving DecidableEq, Repr

/-- `cw4/schemas.py` `ItemCreate`: required `title`, optional
`description`/`price` defaulting to null. -/
structure ItemCreate where
  title : String
  description : Option String := none
  price : Option Int := none
  deriving DecidableEq, Repr

/-- `cw4/schemas.py` `ItemUpdate`: every field optional; an absent field
means "leave unchanged". -/
structure ItemUpdate where
  title : Option String := none
  description : Option String := none
  price : Option Int := none
  deriving DecidableEq, Repr

/-- Modelled from the spec: the persistent store behind `cw4/crud.py`
(absent from src): records in insertion order with auto-incrementing
integer identifiers. -/
structure ItemStore where
  items : List Item
  next_id : Nat
  deriving DecidableEq, Repr

/-- The empty store (fresh database). -/
def ItemStore.empty : ItemStore :=
  { items := [], next_id := 1 }

/-- Modelled from the spec: `crud.create_item` — assign a new identifier,
store the record, return it. -/
def crud_create_item (db : ItemStore) (item : ItemCreate) :
    Item × ItemStore :=
  let stored : Item :=
    { id := db.next_id, title := item.title,
      description := item.description, price := item.price }
  (stored, { items := db.items ++ [stored], next_id := db.next_id + 1 })

/-- Modelled from the spec: `crud.get_item` — fetch by id, `None` when the
id does not exist. -/
def crud_get_item (db : ItemStore) (item_id : Nat) : Option Item :=
  db.items.find? (fun it => it.id == item_id)

/-- Modelled from the spec: `crud.get_items` — records in store-native order,
windowed by `skip`/`limit`. -/
def crud_get_items (db : ItemStore) (skip limit : Nat) : List Item :=
  (db.items.drop skip).take limit

/-- Apply a partial update: only fields present in the `ItemUpdate`
overwrite the stored record. -/
def apply_update (stored : Item) (patch : ItemUpdate) : Item :=
  { stored with
    title := patch.title.getD stored.title,
    description :=
      match patch.description with
      | some d => some d
      | none => stored.description,
    price :=
      match patch.price with
      | some p => some p
      | none => stored.price }

/-- Modelled from the spec: `crud.update_item` — overwrite only the supplied
fields of the record with the given id; `None` when the id does not exist. -/
def crud_update_item (db : ItemStore) (item_id : Nat) (patch : ItemUpdate) :
    Option (Item × ItemStore) :=
  match db.items.find? (fun it => it.id == item_id) with
  | none => none
  | some stored =>
      let updated := apply_update stored patch
      some (updated,
        { db with
          items := db.items.map
            (fun it => if it.id == item_id then updated else it) })

/-- Modelled from the spec: `crud.delete_item` — remove the record with the
given id, reporting whether it existed. -/
def crud_delete_item (db : ItemStore) (item_id : Nat) :
    Bool × ItemStore :=
  if db.items.any (fun it => it.id == item_id) then
    (true, { db with items := db.items.filter (fun it => !(it.id == item_id)) })
  else
    (false, db)

/-- `POST /items/` endpoint (`cw4/main.py` `create_item`). -/
def create_item (item : ItemCreate) (db : ItemStore) : Item × ItemStore :=
  crud_create_item db item

/-- `GET /items/` endpoint (`cw4/main.py` `read_items`). -/
def read_items (skip limit : Nat) (db : ItemStore) : List Item :=
  crud_get_items db skip limit

/-- `GET /items/{item_id}` endpoint (`cw4/main.py` `read_item`): 404 when
the store returns `None`. -/
def read_item (item_id : Nat) (db : ItemStore) : Except HTTPException Item :=
  match crud_get_item db item_id with
  | none => .error ⟨404, "Item not found"⟩
  | some it => .ok it

/-- `PUT /items/{item_id}` endpoint (`cw4/main.py` `update_item`). -/
def update_item (item_id : Nat) (item : ItemUpdate) (db : ItemStore) :
    Except HTTPException Item × ItemStore :=
  match crud_update_item db item_id item with
  | none => (.error ⟨404, "Item not found"⟩, db)
  | some (it, db) => (.ok it, db)

/-- `DELETE /items/{item_id}` endpoint (`cw4/main.py` `delete_item`). -/
def delete_item (item_id : Nat) (db : ItemStore) :
    Except HTTPException String × ItemStore :=
  let (success, db) := crud_delete_item db item_id
  if success then (.ok "Item deleted successfully", db)
  else (.error ⟨404, "Item not found"⟩, db)

/-! ## Helper lemmas -/

/-- Explicit normal form of a successful `run_simulation` call: for a
positive capacity the handler succeeds, the counter advances by one, and the
four provider operations run in order. -/
theorem run_simulation_pos (request : SimulationRequest)
    (client : MockCloudClient) (h : 0 < request.server_capacity) :
    run_simulation request client =
      (.ok { simulation_id := "sim_" ++ pad4 (client.simulation_counter + 1),
             server_capacity := request.server_capacity,
             mean_queue_size :=
               max 0 (10 - (request.server_capacity : ℚ) * (3 / 2)),
             server_utilization :=
               min 100 (50 + (request.server_capacity : ℚ) * 8),
             raw_outputs :=
               [("Mean queue size|Mean queue size",
                   max 0 (10 - (request.server_capacity : ℚ) * (3 / 2))),
                ("Utilization|Server utilization",
                   min 100 (50 + (request.server_capacity : ℚ) * 8))],
             status := "completed" },
       { client with simulation_counter := client.simulation_counter + 1 },
       [.getLatestModelVersion request.model_name,
        .createInputsFromExperiment request.experiment_name,
        .createSimulation,
        .getOutputsAndRunIfAbsent]) := by
  unfold run_simulation
  rw [if_neg (not_le.mpr h)]
  rfl

/-- A string starting with `"sim_"` is not empty. -/
theorem sim_id_ne_empty (s : String) : "sim_" ++ s ≠ "" := by
  intro h
  have h2 : ("sim_" ++ s).length = (0 : Nat) := by rw [h]; rfl
  rw [String.length_append] at h2
  have h3 : ("sim_" : String).length = 4 := rfl
  omega

/-- The append-accumulate fold of the `get_models` loop builds exactly the
order-preserving map of its input. -/
theorem foldl_append_singleton {α β : Type} (f : α → β) (l : List α)
    (acc : List β) :
    l.foldl (fun a x => a ++ [f x]) acc = acc ++ l.map f := by
  induction l generalizing acc with
  | nil => simp
  | cons x xs ih => simp [ih]

/-! ## Claim theorems -/

/-- C1: for every submission with `server_capacity ≤ 0`, the
submit-simulation operation fails with a 400-class validation error
(pydantic's 422 at the boundary, and the in-handler check's 400 for a
request value reaching the handler), the client state is unchanged, and no
provider operation (`get_latest_model_version`,
`create_inputs_from_experiment`, `create_simulation`,
`get_outputs_and_run_if_absent`) is invoked: the provider trace is empty. -/
theorem submit_nonpositive_capacity_rejected (server_capacity : Int)
    (model_name experiment_name : String) (client : MockCloudClient)
    (h : server_capacity ≤ 0) :
    (∃ err : HTTPException,
        submit_simulation server_capacity model_name experiment_name client =
          (.error err, client, ([] : List ProviderCall)) ∧
        400 ≤ err.status_code ∧ err.status_code < 500) ∧
    run_simulation
        { server_capacity := server_capacity, model_name := model_name,
          experiment_name := experiment_name } client =
      (.error ⟨400, "server capacity must be a positive number"⟩, client,
       ([] : List ProviderCall)) := by
  constructor
  · refine ⟨⟨422, "Input should be greater than 0"⟩, ?_, by decide, by decide⟩
    unfold submit_simulation parse_simulation_request
    rw [if_neg (not_lt.mpr h)]
  · unfold run_simulation
    rw [if_pos h]

/-- Witness for C1 at `server_capacity = 0`. -/
theorem submit_nonpositive_capacity_rejected_check :
    ∃ err : HTTPException,
      submit_simulation 0 "Service System Demo" "Baseline" get_cloud_client =
        (.error err, get_cloud_client, ([] : List ProviderCall)) ∧
      400 ≤ err.status_code ∧ err.status_code < 500 :=
  (submit_nonpositive_capacity_rejected 0 "Service System Demo" "Baseline"
    get_cloud_client (by decide)).1

/-- C2: submitting `{server_capacity := 5, model_name := "Service System
Demo", experiment_name := "Baseline"}` against the mock provider succeeds
with `mean_queue_size = max(0, 10 - 5*1.5) = 2.5` and `server_utilization =
min(100, 50 + 5*8) = 90`. -/
theorem mock_scenario_capacity_five :
    ∃ (resp : SimulationResponse) (client : MockCloudClient)
      (trace : List ProviderCall),
      submit_simulation 5 "Service System Demo" "Baseline" get_cloud_client =
        (.ok resp, client, trace) ∧
      resp.mean_queue_size = max 0 (10 - 5 * (3 / 2)) ∧
      resp.mean_queue_size = 5 / 2 ∧
      resp.server_utilization = min 100 (50 + 5 * 8) ∧
      resp.server_utilization = 90 := by
  have h := run_simulation_pos
    { server_capacity := 5, model_name := "Service System Demo",
      experiment_name := "Baseline" } get_cloud_client (by norm_num)
  have hsub : submit_simulation 5 "Service System Demo" "Baseline"
      get_cloud_client =
      run_simulation
        { server_capacity := 5, model_name := "Service System Demo",
          experiment_name := "Baseline" } get_cloud_client := rfl
  rw [h] at hsub
  refine ⟨_, _, _, hsub, ?_, ?_, ?_, ?_⟩ <;>
    norm_num [max_def, min_def]

/-- C3: every valid (`server_capacity > 0`) submission succeeds, and the
response's `simulation_id` is non-empty, its `server_capacity` is the
request's value unchanged, and its `status` is `"completed"`. -/
theorem valid_submission_response_shape (request : SimulationRequest)
    (client : MockCloudClient) (h : 0 < request.server_capacity) :
    ∃ (resp : SimulationResponse) (client' : MockCloudClient)
      (trace : List ProviderCall),
      run_simulation request client = (.ok resp, client', trace) ∧
      resp.simulation_id ≠ "" ∧
      resp.server_capacity = request.server_capacity ∧
      resp.status = "completed" := by
  refine ⟨_, _, _, run_simulation_pos request client h, ?_, rfl, rfl⟩
  exact sim_id_ne_empty _

/-- Witness for C3 at `server_capacity = 3`. -/
theorem valid_submission_response_shape_check :
    ∃ (resp : SimulationResponse) (client' : MockCloudClient)
      (trace : List ProviderCall),
      run_simulation { server_capacity := 3 } get_cloud_client =
        (.ok resp, client', trace) ∧
      resp.simulation_id ≠ "" ∧
      resp.server_capacity = 3 ∧
      resp.status = "completed" :=
  valid_submission_response_shape { server_capacity := 3 } get_cloud_client
    (by decide)

/-- Normal form of `get_model_by_id` when the linear scan finds a match. -/
theorem get_model_by_id_found {client : MockCloudClient} {model_id : String}
    {m : MockModel}
    (h : ((client.get_models).1).find? (fun x => x.id == model_id) = some m) :
    get_model_by_id model_id client =
      (.ok { id := m.id, name := m.name,
             latest_version_id := m.latest_version.map (fun v => v.id),
             version_name := m.latest_version.map (fun v => v.name),
             version_number := m.latest_version.map (fun v => v.number) },
       client) := by
  unfold get_model_by_id
  simp only [MockCloudClient.get_models] at h ⊢
  rw [h]

/-- Normal form of `get_model_by_id` when the linear scan finds no match. -/
theorem get_model_by_id_not_found {client : MockCloudClient}
    {model_id : String}
    (h : ((client.get_models).1).find? (fun x => x.id == model_id) = none) :
    get_model_by_id model_id client =
      (.error ⟨404, "model with id " ++ model_id ++ " not found"⟩, client) := by
  unfold get_model_by_id
  simp only [MockCloudClient.get_models] at h ⊢
  rw [h]

/-- C4: get-model-by-id is consistent with list-models. If some model in the
listing has the requested id, the linear scan returns a `ModelInfo` whose
`id` and `name` match that listed record; if no model in the listing has the
id, it returns a 404 not-found error. Either way the client state is
untouched. -/
theorem get_model_by_id_consistent_with_listing (client : MockCloudClient)
    (model_id : String) :
    ((∃ m ∈ (client.get_models).1, m.id = model_id) →
      ∃ m, m ∈ (client.get_models).1 ∧ m.id = model_id ∧
        ∃ info : ModelInfo,
          get_model_by_id model_id client = (.ok info, client) ∧
          info.id = m.id ∧ info.name = m.name) ∧
    ((∀ m ∈ (client.get_models).1, m.id ≠ model_id) →
      ∃ detail : String,
        get_model_by_id model_id client = (.error ⟨404, detail⟩, client)) := by
  constructor
  · rintro ⟨m, hm, hid⟩
    have hsome : (((client.get_models).1).find?
        (fun x => x.id == model_id)).isSome := by
      rw [List.find?_isSome]
      exact ⟨m, hm, by simp [hid]⟩
    obtain ⟨m', hm'⟩ := Option.isSome_iff_exists.mp hsome
    have hmem := List.mem_of_find?_eq_some hm'
    have hpid : m'.id = model_id := by simpa using List.find?_some hm'
    exact ⟨m', hmem, hpid, _, get_model_by_id_found hm', rfl, rfl⟩
  · intro hnone
    refine ⟨_, get_model_by_id_not_found ?_⟩
    rw [List.find?_eq_none]
    intro m hm
    simpa using hnone m hm

/-- Witness for C4: both directions at the demo client — id `"model_1"` is
listed and found with matching name; id `"no_such_model"` is not listed and
yields 404. -/
theorem get_model_by_id_consistent_with_listing_check :
    (∃ m, m ∈ (get_cloud_client.get_models).1 ∧ m.id = "model_1" ∧
      ∃ info : ModelInfo,
        get_model_by_id "model_1" get_cloud_client =
          (.ok info, get_cloud_client) ∧
        info.id = m.id ∧ info.name = m.name) ∧
    (∃ detail : String,
      get_model_by_id "no_such_model" get_cloud_client =
        (.error ⟨404, detail⟩, get_cloud_client)) :=
  ⟨(get_model_by_id_consistent_with_listing get_cloud_client "model_1").1
      ⟨MockModel.make "model_1" "Service System Demo", by decide, rfl⟩,
   (get_model_by_id_consistent_with_listing get_cloud_client
      "no_such_model").2 (by decide)⟩

/-- C6: listing models is order-preserving and idempotent: the endpoint's
result is exactly the order-preserving map of the provider's list (no local
re-sorting), the call leaves the client state unchanged, and a second
consecutive call returns the identical sequence. -/
theorem list_models_order_preserving_idempotent (client : MockCloudClient)
    (include_versions : Bool) :
    (get_models_endpoint client include_versions).1 =
      ((client.get_models).1).map (model_to_info include_versions) ∧
    (get_models_endpoint client include_versions).2 = client ∧
    get_models_endpoint ((get_models_endpoint client include_versions).2)
        include_versions =
      get_models_endpoint client include_versions := by
  refine ⟨?_, rfl, rfl⟩
  show ((client.get_models).1).foldl
      (fun acc model => acc ++ [model_to_info include_versions model]) [] = _
  simpa using foldl_append_singleton (model_to_info include_versions)
    ((client.get_models).1) []

/-- C7: when a requested metric key — `"Mean queue size|Mean queue size"` or
`"Utilization|Server utilization"` — is absent from the mock output bag, the
`value` extraction returns the default `0.0` instead of raising. -/
theorem value_missing_key_defaults_to_zero (outputs : MockOutputs)
    (key : String)
    (_hkey : key = "Mean queue size|Mean queue size" ∨
      key = "Utilization|Server utilization")
    (habsent : outputs.data.lookup key = none) :
    outputs.value key = 0 := by
  unfold MockOutputs.value
  rw [habsent]
  rfl

/-- Witness for C7: an output bag with an empty data dict. -/
theorem value_missing_key_defaults_to_zero_check :
    MockOutputs.value ⟨3, []⟩ "Mean queue size|Mean queue size" = 0 :=
  value_missing_key_defaults_to_zero ⟨3, []⟩ "Mean queue size|Mean queue size"
    (Or.inl rfl) rfl

/-- C8: for every integer capacity fed to the mock, the produced
`mean_queue_size` is clamped non-negative by the `max` and the produced
`server_utilization` is clamped to at most 100 by the `min`. -/
theorem mock_outputs_clamped (server_capacity : Int) :
    0 ≤ (MockOutputs.ofCapacity server_capacity).value
        "Mean queue size|Mean queue size" ∧
    (MockOutputs.ofCapacity server_capacity).value
        "Utilization|Server utilization" ≤ 100 := by
  have h1 : (MockOutputs.ofCapacity server_capacity).value
      "Mean queue size|Mean queue size" =
      max 0 (10 - (server_capacity : ℚ) * (3 / 2)) := rfl
  have h2 : (MockOutputs.ofCapacity server_capacity).value
      "Utilization|Server utilization" =
      min 100 (50 + (server_capacity : ℚ) * 8) := rfl
  rw [h1, h2]
  exact ⟨le_max_left 0 _, min_le_left 100 _⟩

/-- C9: every successfully parsed `SimulationRequest` satisfies
`server_capacity > 0` (the pydantic `gt=0` constraint), so for every parsed
request the handler's explicit `server_capacity ≤ 0` branch — the 400
error — is unreachable: the handler succeeds for every client state. -/
theorem parsed_request_positive_handler_400_unreachable (c : Int)
    (model_name experiment_name : String) (request : SimulationRequest)
    (h : parse_simulation_request c model_name experiment_name = .ok request) :
    0 < request.server_capacity ∧
    ∀ client : MockCloudClient,
      ∃ (resp : SimulationResponse) (client' : MockCloudClient)
        (trace : List ProviderCall),
        run_simulation request client = (.ok resp, client', trace) := by
  unfold parse_simulation_request at h
  by_cases hc : c > 0
  · rw [if_pos hc] at h
    injection h with h
    subst h
    exact ⟨hc, fun client => ⟨_, _, _, run_simulation_pos _ client hc⟩⟩
  · rw [if_neg hc] at h
    exact absurd h (by simp)

/-- Witness for C9 at the parse of `server_capacity = 5`. -/
theorem parsed_request_positive_handler_400_unreachable_check :
    0 < (({ server_capacity := 5, model_name := "Service System Demo",
            experiment_name := "Baseline" } :
        SimulationRequest)).server_capacity ∧
    ∀ client : MockCloudClient,
      ∃ (resp : SimulationResponse) (client' : MockCloudClient)
        (trace : List ProviderCall),
        run_simulation
            { server_capacity := 5, model_name := "Service System Demo",
              experiment_name := "Baseline" } client =
          (.ok resp, client', trace) :=
  parsed_request_positive_handler_400_unreachable 5 "Service System Demo"
    "Baseline" _ rfl

/-- C10: against the mock provider, submit-simulation never fails for any
`model_name` or `experiment_name`: for every positive capacity, every pair
of name strings and every client state, the operation returns a success
whose `status` is `"completed"` — the 500 internal-error branch is never
taken. -/
theorem mock_submit_never_fails (c : Int)
    (model_name experiment_name : String) (client : MockCloudClient)
    (h : 0 < c) :
    ∃ (resp : SimulationResponse) (client' : MockCloudClient)
      (trace : List ProviderCall),
      submit_simulation c model_name experiment_name client =
        (.ok resp, client', trace) ∧
      resp.status = "completed" := by
  have hsub : submit_simulation c model_name experiment_name client =
      run_simulation
        { server_capacity := c, model_name := model_name,
          experiment_name := experiment_name } client := by
    unfold submit_simulation parse_simulation_request
    rw [if_pos h]
  rw [hsub, run_simulation_pos _ client h]
  exact ⟨_, _, _, rfl, rfl⟩

/-- Witness for C10 at capacity 1 and arbitrary-looking names. -/
theorem mock_submit_never_fails_check :
    ∃ (resp : SimulationResponse) (client' : MockCloudClient)
      (trace : List ProviderCall),
      submit_simulation 1 "No Such Model" "No Such Experiment"
          get_cloud_client =
        (.ok resp, client', trace) ∧
      resp.status = "completed" :=
  mock_submit_never_fails 1 "No Such Model" "No Such Experiment"
    get_cloud_client (by decide)

/-- C5: the Item CRUD round-trip on a fresh store: create(title "A",
price 10) stores a record under the assigned id with null description; a
partial update of only the price leaves title unchanged and sets price 20;
after a delete of that id, a subsequent get returns a 404 not-found error. -/
theorem item_crud_round_trip :
    (create_item { title := "A", price := some 10 } ItemStore.empty).1.id =
      1 ∧
    read_item 1
        (create_item { title := "A", price := some 10 } ItemStore.empty).2 =
      .ok { id := 1, title := "A", description := none, price := some 10 } ∧
    (update_item 1 { price := some 20 }
        (create_item { title := "A", price := some 10 }
          ItemStore.empty).2).1 =
      .ok { id := 1, title := "A", description := none, price := some 20 } ∧
    read_item 1
        (update_item 1 { price := some 20 }
          (create_item { title := "A", price := some 10 }
            ItemStore.empty).2).2 =
      .ok { id := 1, title := "A", description := none, price := some 20 } ∧
    read_item 1
        (delete_item 1
          (update_item 1 { price := some 20 }
            (create_item { title := "A", price := some 10 }
              ItemStore.empty).2).2).2 =
      .error ⟨404, "Item not found"⟩ := by
  refine ⟨rfl, rfl, rfl, rfl, rfl⟩

end MesSystems
